import Mathlib

/-!
Shallow embedding of the two source modules of the graphnet repository under
verification: the task abstraction in src/graphnet/models/task/task.py and the
logging utilities in src/graphnet/utilities/logging.py.

Scalars carried by tensors are modelled by the integers; transforms and loss
functions are unary and binary functions on these scalars; a batch is a partial
map from string keys to scalars; Python exceptions are modelled by an explicit
error type returned through Except.
-/

namespace Graphnet

/-- Scalar value carried through the task pipeline (a stand-in for tensor
elements). -/
abbrev Val := Int

/-- Python exceptions that the embedded code can raise. -/
inductive PyError where
  | assertionError (msg : String)
  | nameError (name : String)
  | attributeError (name : String)
  | typeError
  | keyError (key : String)
  deriving DecidableEq, Repr

/-- A concrete Task variant: it supplies the abstract members of the base class
in task.py, namely nb_inputs and the protected forward hook. The hook fwd takes
the value passed to it and the current regularisation-loss attribute and
returns its output together with the possibly updated regularisation loss,
modelling that the hook may accumulate into that attribute. transform_forward
records whether the variant itself defines a method of that name: the base
class in task.py defines no such method, so an instance-attribute lookup of
that name succeeds only when the variant supplies it. -/
structure TaskVariant where
  nb_inputs : Nat
  fwd : Val → Option Val → Val × Option Val
  transform_forward : Option (Val → Val)

/-- Member variables of a constructed Task (task.py lines 51-69) together with
the affine projection and the concrete variant. -/
structure Task where
  _regularisation_loss : Option Val
  _target_label : String
  _loss_function : Val → Val → Val
  _transform_prediction_training : Val → Val
  _transform_prediction_inference : Val → Val
  _transform_target : Val → Val
  _inference : Bool
  _affine : Val → Val
  variant : TaskVariant

/-- Arguments of the Task constructor (task.py lines 26-34). -/
structure TaskConfig where
  hidden_size : Nat
  target_label : String
  loss_function : Val → Val → Val
  transform_prediction_and_target : Option (Val → Val)
  transform_target : Option (Val → Val)
  transform_inference : Option (Val → Val)

/-- Task constructor, task.py lines 36-69. The two assert statements at lines
39-42 are the first two checks. The module task.py imports neither numpy nor
torch (its imports are at lines 1-15), yet line 44 evaluates np.logspace, so
whenever transform_target is supplied (and the asserts pass) construction
raises NameError on the unbound name np before the invertibility assert at
line 48 can run; the member-variable assignment of lines 55-66 is reproduced
below and its transform_target branch is consequently unreachable. The affine
argument stands for the freshly constructed Linear layer of line 69. -/
def Task.init (cfg : TaskConfig) (v : TaskVariant) (affine : Val → Val) :
    Except PyError Task :=
  if cfg.transform_prediction_and_target.isSome && cfg.transform_target.isSome then
    .error (.assertionError
      "Please specify at most one of transform_prediction_and_target and transform_target")
  else if cfg.transform_target.isSome != cfg.transform_inference.isSome then
    .error (.assertionError
      "Please specify both transform_inference and transform_target")
  else if cfg.transform_target.isSome then
    .error (.nameError "np")
  else
    let transforms : (Val → Val) × (Val → Val) × (Val → Val) :=
      match cfg.transform_prediction_and_target, cfg.transform_target,
            cfg.transform_inference with
      | some f, _, _ => (f, fun y => y, f)
      | none, some g, some h => (fun y => y, h, g)
      | none, some g, none => (fun y => y, fun y => y, g)
      | none, none, _ => (fun y => y, fun y => y, fun y => y)
    .ok
      { _regularisation_loss := none
        _target_label := cfg.target_label
        _loss_function := cfg.loss_function
        _transform_prediction_training := transforms.1
        _transform_prediction_inference := transforms.2.1
        _transform_target := transforms.2.2
        _inference := false
        _affine := affine
        variant := v }

/-- Task.forward, task.py lines 71-76: reset the regularisation loss to 0,
apply the affine projection, then look up self dot transform_forward with a
leading underscore — an attribute the base class never defines — and on
success apply it and delegate to the variant hook. The returned pair is the
Python return value (or raised exception) together with the post-call object
state. -/
def Task.forward (t : Task) (x : Val) : Except PyError Val × Task :=
  let t1 : Task := { t with _regularisation_loss := some 0 }
  let x1 := t._affine x
  match t.variant.transform_forward with
  | none => (.error (.attributeError "_transform_forward"), t1)
  | some tf =>
    let r := t.variant.fwd (tf x1) t1._regularisation_loss
    (.ok r.1, { t1 with _regularisation_loss := r.2 })

/-- The mode-dispatching prediction transform, task.py lines 77-82. It is
defined on the class but never invoked by forward. -/
def Task.transform_prediction (t : Task) (prediction : Val) : Val :=
  if t._inference then t._transform_prediction_inference prediction
  else t._transform_prediction_training prediction

/-- Task.compute_loss, task.py lines 87-93: fetch the raw target at the target
label (KeyError when absent), apply the target transform twice (lines 90 and
91), then add the regularisation-loss attribute to the loss (TypeError when
that attribute is still None, as Python rejects adding None to a number). -/
def Task.compute_loss (t : Task) (pred : Val) (data : String → Option Val) :
    Except PyError Val :=
  match data t._target_label with
  | none => .error (.keyError t._target_label)
  | some target0 =>
    let target1 := t._transform_target target0
    let target2 := t._transform_target target1
    match t._regularisation_loss with
    | none => .error .typeError
    | some r => .ok (t._loss_function pred target2 + r)

/-- Task.inference, task.py lines 95-98: set the mode flag. -/
def Task.inference (t : Task) : Task :=
  { t with _inference := true }

/-- State of a RepeatFilter, logging.py lines 20-26: a Counter over message
strings (modelled as the counting function itself) and the repeat threshold,
set to 20 by the constructor. -/
structure RepeatFilter where
  messages : String → Nat
  nb_repeats_allowed : Nat

/-- RepeatFilter constructor, logging.py lines 23-26. -/
def RepeatFilter.new : RepeatFilter :=
  { messages := fun _ => 0, nb_repeats_allowed := 20 }

/-- RepeatFilter.filter, logging.py lines 28-40: increment the count of the
record message, log one terminal notice exactly when the count reaches the
threshold, and pass the record while the count is at most the threshold. The
result is (record passes, terminal notice logged, updated filter). -/
def RepeatFilter.filter (f : RepeatFilter) (msg : String) :
    Bool × Bool × RepeatFilter :=
  let messages := fun m => if m = msg then f.messages m + 1 else f.messages m
  let count := messages msg
  (decide (count ≤ f.nb_repeats_allowed), decide (count = f.nb_repeats_allowed),
   { f with messages := messages })

/-- Run n successive occurrences of the same message through a RepeatFilter,
returning how many occurrences the filter passed and how many terminal
notices it logged. -/
def runFilter (f : RepeatFilter) (msg : String) : Nat → Nat × Nat
  | 0 => (0, 0)
  | n + 1 =>
    let r := f.filter msg
    let rest := runFilter r.2.2 msg n
    ((if r.1 then 1 else 0) + rest.1, (if r.2.1 then 1 else 0) + rest.2)

/-- Observable state of the graphnet root logger: its level, the filters
attached to it, and how many stream and file handlers are attached. -/
structure RootLoggerState where
  level : Nat
  filters : List RepeatFilter
  stream_handlers : Nat
  file_handlers : Nat

/-- Logger._configure_root_logger, logging.py lines 81-125: set the level to
INFO (numeric value 20), attach one stream handler, and attach one file
handler when a log folder is given. The line that would attach the
RepeatFilter (logging.py line 91) is commented out in the source, so the
configured logger carries no filters. -/
def configure_root_logger (log_folder : Option String) : RootLoggerState :=
  { level := 20
    filters := []
    stream_handlers := 1
    file_handlers := if log_folder.isSome then 1 else 0 }

/-- Python logging filter semantics on a logger: a record passes when every
attached filter accepts it, stopping at the first filter that rejects it;
stateful filters that ran are updated. -/
def applyFilters : List RepeatFilter → String → Bool × List RepeatFilter
  | [], _ => (true, [])
  | f :: fs, msg =>
    let r := f.filter msg
    if r.1 then
      let rest := applyFilters fs msg
      (rest.1, r.2.2 :: rest.2)
    else
      (false, r.2.2 :: fs)

/-- Handling one record on the root logger: the record is emitted to the
handlers exactly when the attached filters pass it. -/
def RootLoggerState.handle (lg : RootLoggerState) (msg : String) :
    Bool × RootLoggerState :=
  let r := applyFilters lg.filters msg
  (r.1, { lg with filters := r.2 })

/-- Log the same message n times on the root logger, returning how many of
those records were emitted together with the final logger state. -/
def rootLogN (lg : RootLoggerState) (msg : String) : Nat → Nat × RootLoggerState
  | 0 => (0, lg)
  | n + 1 =>
    let r := lg.handle msg
    let rest := rootLogN r.2 msg n
    ((if r.1 then 1 else 0) + rest.1, rest.2)

/-- A variant that supplies only what the base class declares abstract: its
hook echoes its input and leaves the regularisation loss untouched, and it
defines no method named transform_forward with a leading underscore. -/
def echoVariant : TaskVariant :=
  { nb_inputs := 1, fwd := fun y r => (y, r), transform_forward := none }

/-- A task whose target transform adds one, whose loss function returns the
transformed target it received, and whose regularisation loss has been reset
by a forward call; used to exhibit the double application of the target
transform in compute_loss. -/
def c1Task : Task :=
  { _regularisation_loss := some 0
    _target_label := "energy"
    _loss_function := fun _ t => t
    _transform_prediction_training := fun y => y
    _transform_prediction_inference := fun y => y
    _transform_target := fun y => y + 1
    _inference := false
    _affine := fun y => y
    variant := echoVariant }

/-- A batch mapping every key to the raw target 0. -/
def c1Data : String → Option Val := fun _ => some 0

/-- A task with distinct training and inference prediction transforms and a
variant that defines no method named transform_forward with a leading
underscore. -/
def c2Task : Task :=
  { _regularisation_loss := none
    _target_label := "energy"
    _loss_function := fun p t => p + t
    _transform_prediction_training := fun y => y + 1
    _transform_prediction_inference := fun y => 3 * y
    _inference := false
    _transform_target := fun y => y
    _affine := fun y => y
    variant := echoVariant }

/-- A task used to witness the attribute-lookup failure of forward, with a
stale regularisation loss left over from an earlier call. -/
def c3Task : Task :=
  { _regularisation_loss := some 7
    _target_label := "zenith"
    _loss_function := fun p t => p + t
    _transform_prediction_training := fun y => y
    _transform_prediction_inference := fun y => y
    _transform_target := fun y => y
    _inference := false
    _affine := fun y => y + 2
    variant := echoVariant }

/-- A constructor configuration supplying a transform pair that is not an
inverse pair: the target transform doubles and the inference transform is the
identity. -/
def c4Cfg : TaskConfig :=
  { hidden_size := 4
    target_label := "energy"
    loss_function := fun p t => p + t
    transform_prediction_and_target := none
    transform_target := some (fun y => 2 * y)
    transform_inference := some (fun y => y) }

/-- A constructor configuration supplying a transform pair that is an exact
inverse pair: both transforms are the identity, so every finite round-trip
value matches the original input. -/
def c5Cfg : TaskConfig :=
  { hidden_size := 4
    target_label := "energy"
    loss_function := fun p t => p + t
    transform_prediction_and_target := none
    transform_target := some (fun y => y)
    transform_inference := some (fun y => y) }

/-- A constructor configuration with no transform options supplied. -/
def c6Cfg : TaskConfig :=
  { hidden_size := 4
    target_label := "energy"
    loss_function := fun p t => p + t
    transform_prediction_and_target := none
    transform_target := none
    transform_inference := none }

/-- The task produced by construction from c6Cfg, on which forward has never
been called: its regularisation loss is still the constructor value None. -/
def c6TaskFresh : Task :=
  { _regularisation_loss := none
    _target_label := "energy"
    _loss_function := fun p t => p + t
    _transform_prediction_training := fun y => y
    _transform_prediction_inference := fun y => y
    _transform_target := fun y => y
    _inference := false
    _affine := fun y => y
    variant := echoVariant }

/-- A batch holding the raw target 3 under the key "energy". -/
def c6Data : String → Option Val := fun k => if k = "energy" then some 3 else none

/-- A constructor configuration supplying both transform schemes at once. -/
def c8Cfg : TaskConfig :=
  { hidden_size := 4
    target_label := "energy"
    loss_function := fun p t => p + t
    transform_prediction_and_target := some (fun y => y + 1)
    transform_target := some (fun y => y + 1)
    transform_inference := some (fun y => y - 1) }

/-- A constructor configuration supplying the target transform but omitting
the inference transform. -/
def c9CfgOnlyTarget : TaskConfig :=
  { hidden_size := 4
    target_label := "energy"
    loss_function := fun p t => p + t
    transform_prediction_and_target := none
    transform_target := some (fun y => y + 1)
    transform_inference := none }

/-- A constructor configuration supplying neither member of the transform
pair. -/
def c9CfgNeither : TaskConfig :=
  { hidden_size := 4
    target_label := "energy"
    loss_function := fun p t => p + t
    transform_prediction_and_target := none
    transform_target := none
    transform_inference := none }

/-- C1: compute_loss passes the raw target through the target transform twice
(task.py lines 90-91), not exactly once as the claim states. With target
transform adding one, raw target 0 and a loss function returning the
transformed target it received, the loss is 2, the image of a double
application, while a single application of the transform to the raw target
gives 1. -/
theorem compute_loss_applies_target_transform_twice :
    c1Task.compute_loss 5 c1Data = .ok 2 ∧
    c1Task._transform_target 0 = 1 :=
  ⟨rfl, rfl⟩

/-- C2: the inference operation is idempotent and nothing returns the mode to
training, but forward never consults the mode-dispatching prediction
transforms: both before and after the switch to inference mode it raises
AttributeError on the undefined name with a leading underscore,
transform_forward, so it never applies the inference (or training) prediction
transform. -/
theorem inference_idempotent_but_forward_applies_no_prediction_transform :
    c2Task.inference._inference = true ∧
    c2Task.inference.inference = c2Task.inference ∧
    (c2Task.forward 1).1 = .error (.attributeError "_transform_forward") ∧
    (c2Task.inference.forward 1).1 = .error (.attributeError "_transform_forward") :=
  ⟨rfl, rfl, rfl, rfl⟩

/-- C3: on every task whose variant does not itself define a method named
transform_forward with a leading underscore, every forward call raises an
attribute-lookup error, returning no prediction, and leaves the regularisation
loss reset to 0. -/
theorem forward_raises_attribute_lookup_error (t : Task) (x : Val)
    (h : t.variant.transform_forward = none) :
    t.forward x = (.error (.attributeError "_transform_forward"),
      { t with _regularisation_loss := some 0 }) := by
  simp [Task.forward, h]

/-- Witness for C3 at a concrete task with a stale regularisation loss. -/
theorem forward_raises_attribute_lookup_error_witness :
    c3Task.variant.transform_forward = none ∧
    c3Task.forward 2 = (.error (.attributeError "_transform_forward"),
      { c3Task with _regularisation_loss := some 0 }) :=
  ⟨rfl, forward_raises_attribute_lookup_error c3Task 2 rfl⟩

/-- C4: constructing a task with a transform pair that is not an inverse pair
raises NameError on the unbound name np (task.py line 44, numpy is never
imported), not the ConfigurationError of the invertibility check, which is
unreachable. -/
theorem construction_with_noninverse_pair_raises_name_error :
    Task.init c4Cfg echoVariant (fun y => y) = .error (.nameError "np") :=
  rfl

/-- C5: constructing a task with an exact inverse transform pair does not
succeed: it raises the same NameError on the unbound name np before the
finiteness-filtered comparison could run. -/
theorem construction_with_inverse_pair_raises_name_error :
    Task.init c5Cfg echoVariant (fun y => y) = .error (.nameError "np") :=
  rfl

/-- C6 counterexample: on a freshly constructed task, on which forward has
never been called, compute_loss does not complete with a stale or zero
regularisation term: the constructor leaves the regularisation loss as None
(task.py line 52) and adding it to the loss raises TypeError. -/
theorem compute_loss_before_any_forward_counterexample :
    Task.init c6Cfg echoVariant (fun y => y) = .ok c6TaskFresh ∧
    c6TaskFresh.compute_loss 5 c6Data = .error .typeError :=
  ⟨rfl, rfl⟩

/-- C6 amended: calling compute_loss on a task whose regularisation loss is
still the constructor value None is not rejected by an explicit guard, but it
fails with TypeError at the final addition after the target has been fetched
and transformed. -/
theorem compute_loss_before_any_forward_raises_type_error
    (t : Task) (pred target : Val) (data : String → Option Val)
    (hd : data t._target_label = some target)
    (hr : t._regularisation_loss = none) :
    t.compute_loss pred data = .error .typeError := by
  simp [Task.compute_loss, hd, hr]

/-- Witness for the amended C6 at a concrete fresh task. -/
theorem compute_loss_before_any_forward_raises_type_error_witness :
    c6Data c6TaskFresh._target_label = some 3 ∧
    c6TaskFresh._regularisation_loss = none ∧
    c6TaskFresh.compute_loss 5 c6Data = .error .typeError :=
  ⟨by decide, rfl,
   compute_loss_before_any_forward_raises_type_error c6TaskFresh 5 3 c6Data
     (by decide) rfl⟩

/-- C7: forward overwrites the regularisation loss with 0 at its start: its
entire result is independent of the value the attribute held before the call,
and the value the call works with, kept on the error path and handed to the
variant hook on the success path, is exactly 0. -/
theorem forward_resets_regularisation_loss (t : Task) (r : Option Val) (x : Val) :
    ({ t with _regularisation_loss := r } : Task).forward x = t.forward x ∧
    (t.forward x).2._regularisation_loss =
      (match t.variant.transform_forward with
       | none => some 0
       | some tf => (t.variant.fwd (tf (t._affine x)) (some 0)).2) := by
  constructor
  · rfl
  · cases h : t.variant.transform_forward <;> simp [Task.forward, h]

/-- C8: supplying both transform_prediction_and_target and transform_target
makes construction fail on the first constructor assert (task.py lines
39-40). -/
theorem construction_with_both_schemes_raises
    (cfg : TaskConfig) (v : TaskVariant) (affine : Val → Val)
    (h1 : cfg.transform_prediction_and_target.isSome = true)
    (h2 : cfg.transform_target.isSome = true) :
    Task.init cfg v affine = .error (.assertionError
      "Please specify at most one of transform_prediction_and_target and transform_target") := by
  simp [Task.init, h1, h2]

/-- Witness for C8 at a concrete configuration supplying both schemes. -/
theorem construction_with_both_schemes_raises_witness :
    c8Cfg.transform_prediction_and_target.isSome = true ∧
    c8Cfg.transform_target.isSome = true ∧
    Task.init c8Cfg echoVariant (fun y => y) = .error (.assertionError
      "Please specify at most one of transform_prediction_and_target and transform_target") :=
  ⟨rfl, rfl,
   construction_with_both_schemes_raises c8Cfg echoVariant (fun y => y) rfl rfl⟩

/-- C9: supplying exactly one of transform_target and transform_inference
makes construction fail on a constructor assert, while configurations
supplying both or neither never trip the completeness assert of task.py lines
41-42. -/
theorem construction_with_incomplete_pair_raises
    (cfg : TaskConfig) (v : TaskVariant) (affine : Val → Val) :
    (cfg.transform_target.isSome ≠ cfg.transform_inference.isSome →
      ∃ m, Task.init cfg v affine = .error (.assertionError m)) ∧
    (cfg.transform_target.isSome = cfg.transform_inference.isSome →
      Task.init cfg v affine ≠ .error (.assertionError
        "Please specify both transform_inference and transform_target")) := by
  constructor
  · intro h
    rcases hpt : cfg.transform_prediction_and_target with _ | f
    · rcases htt : cfg.transform_target with _ | g
      · rcases hti : cfg.transform_inference with _ | k
        · rw [htt, hti] at h; exact absurd rfl h
        · exact ⟨"Please specify both transform_inference and transform_target",
            by simp [Task.init, hpt, htt, hti]⟩
      · rcases hti : cfg.transform_inference with _ | k
        · exact ⟨"Please specify both transform_inference and transform_target",
            by simp [Task.init, hpt, htt, hti]⟩
        · rw [htt, hti] at h; exact absurd rfl h
    · rcases htt : cfg.transform_target with _ | g
      · rcases hti : cfg.transform_inference with _ | k
        · rw [htt, hti] at h; exact absurd rfl h
        · exact ⟨"Please specify both transform_inference and transform_target",
            by simp [Task.init, hpt, htt, hti]⟩
      · exact ⟨"Please specify at most one of transform_prediction_and_target and transform_target",
          by simp [Task.init, hpt, htt]⟩
  · intro h hc
    rcases hpt : cfg.transform_prediction_and_target with _ | f
    · rcases htt : cfg.transform_target with _ | g
      · rcases hti : cfg.transform_inference with _ | k
        · simp [Task.init, hpt, htt, hti] at hc
        · rw [htt, hti] at h; simp at h
      · rcases hti : cfg.transform_inference with _ | k
        · rw [htt, hti] at h; simp at h
        · simp [Task.init, hpt, htt, hti] at hc
    · rcases htt : cfg.transform_target with _ | g
      · rcases hti : cfg.transform_inference with _ | k
        · simp [Task.init, hpt, htt, hti] at hc
        · rw [htt, hti] at h; simp at h
      · have hmsg : Task.init cfg v affine = .error (.assertionError
          "Please specify at most one of transform_prediction_and_target and transform_target") := by
          simp [Task.init, hpt, htt]
        rw [hmsg] at hc
        simp only [Except.error.injEq, PyError.assertionError.injEq] at hc
        exact absurd hc (by decide)

/-- Witness for C9: the implication for an incomplete pair discharged at a
configuration with only the target transform, and the implication for a
complete configuration discharged at a configuration with neither
transform. -/
theorem construction_with_incomplete_pair_raises_witness :
    (∃ m, Task.init c9CfgOnlyTarget echoVariant (fun y => y) =
      .error (.assertionError m)) ∧
    Task.init c9CfgNeither echoVariant (fun y => y) ≠ .error (.assertionError
      "Please specify both transform_inference and transform_target") :=
  ⟨(construction_with_incomplete_pair_raises c9CfgOnlyTarget echoVariant
      (fun y => y)).1 (by decide),
   (construction_with_incomplete_pair_raises c9CfgNeither echoVariant
      (fun y => y)).2 (by decide)⟩

/-- Counting lemma for the repeat filter: starting from a filter that has
already counted k occurrences of a message and whose threshold is 20, the
next n occurrences pass min (k+n) 20 - min k 20 times, and the terminal
notice fires exactly once, namely when the running count crosses 20. -/
theorem runFilter_count (msg : String) (n : Nat) :
    ∀ (k : Nat) (f : RepeatFilter), f.messages msg = k →
      f.nb_repeats_allowed = 20 →
      runFilter f msg n = (min (k + n) 20 - min k 20,
        if k < 20 ∧ 20 ≤ k + n then 1 else 0) := by
  induction n with
  | zero =>
    intro k f hk ht
    simp only [runFilter]
    rw [Prod.mk.injEq]
    constructor
    · omega
    · split_ifs <;> omega
  | succ n ih =>
    intro k f hk ht
    have h1 : (f.filter msg).1 = decide (k + 1 ≤ 20) := by
      simp [RepeatFilter.filter, hk, ht]
    have h2 : (f.filter msg).2.1 = decide (k + 1 = 20) := by
      simp [RepeatFilter.filter, hk, ht]
    have hmsg : (f.filter msg).2.2.messages msg = k + 1 := by
      simp [RepeatFilter.filter, hk]
    have ht2 : (f.filter msg).2.2.nb_repeats_allowed = 20 := by
      simp [RepeatFilter.filter, ht]
    simp only [runFilter]
    rw [ih (k + 1) (f.filter msg).2.2 hmsg ht2, h1, h2]
    rw [Prod.mk.injEq]
    constructor
    · simp only [decide_eq_true_eq]
      split_ifs <;> omega
    · simp only [decide_eq_true_eq]
      split_ifs <;> omega

/-- The configured root logger carries no filters, so every record is
emitted. -/
theorem rootLogN_without_filters (msg : String) (n : Nat) :
    ∀ lg : RootLoggerState, lg.filters = [] → (rootLogN lg msg n).1 = n := by
  induction n with
  | zero =>
    intro lg h
    simp [rootLogN]
  | succ n ih =>
    intro lg h
    have hh : lg.handle msg = (true, { lg with filters := [] }) := by
      simp [RootLoggerState.handle, applyFilters, h]
    simp only [rootLogN, hh]
    rw [ih { lg with filters := [] } rfl]
    simp [Nat.add_comm]

/-- C10 counterexample: the logging subsystem as configured never suppresses
repeats, because the line attaching the RepeatFilter is commented out: after
twenty occurrences of the same message the twenty-first is still emitted, and
twenty-one occurrences produce twenty-one emissions. -/
theorem repeat_suppression_counterexample :
    ((rootLogN (configure_root_logger none) "repeated message" 20).2.handle
      "repeated message").1 = true ∧
    (rootLogN (configure_root_logger none) "repeated message" 21).1 = 21 :=
  ⟨rfl, rfl⟩

/-- C10 amended: the RepeatFilter class does implement the claimed policy,
passing the first twenty occurrences of a message and logging one terminal
notice exactly when the twentieth occurrence is reached, but
configure_root_logger never attaches it, so the configured subsystem emits
all n occurrences of any message. -/
theorem repeat_filter_caps_but_is_never_attached
    (msg : String) (n : Nat) (folder : Option String) :
    runFilter RepeatFilter.new msg n = (min n 20, if 20 ≤ n then 1 else 0) ∧
    (configure_root_logger folder).filters = [] ∧
    (rootLogN (configure_root_logger folder) msg n).1 = n := by
  refine ⟨?_, rfl, rootLogN_without_filters msg n (configure_root_logger folder) rfl⟩
  have h := runFilter_count msg n 0 RepeatFilter.new rfl rfl
  rw [h, Prod.mk.injEq]
  constructor
  · omega
  · split_ifs <;> omega

end Graphnet
